import Mathlib

/-!
Shallow embedding of the Sales-Chatbot core (src/agents/sales_agent.py and
src/database/db_connection.py) for checking the specification's claims.

Conventions of the embedding:
* Python strings are Lean `String`s; the scanning primitives below mirror the
  Python operations (`in`, `startswith`, `strip`, `upper`, `lower`, slicing)
  on the `List Char` representation.  The repository's data is ASCII, where
  `Char.toUpper`/`Char.toLower` agree with Python's `str.upper`/`str.lower`.
* Python exceptions are modelled by `PyResult`: a call either returns a value
  (`ok`) or raises (`exn` with the exception's text).
* External collaborators (the Groq language-model transport and the MySQL
  driver) are modelled as explicit behaviour parameters, so theorems quantify
  over every possible collaborator behaviour.
* The specific `re.sub` patterns used by the source are modelled one by one by
  dedicated scanners (`subScanF` with a per-pattern matcher), reproducing
  Python's leftmost, non-overlapping replacement semantics for those patterns.
-/

/-- Python's whitespace class for `str.strip`, `str.split()` and the regex
class `\s`: space, tab, newline, carriage return, vertical tab, form feed. -/
def pyIsSpace (c : Char) : Bool :=
  c = ' ' || c = '\t' || c = '\n' || c = '\r' || c = '\x0b' || c = '\x0c'

/-- Python `str.upper` (ASCII). -/
def pyUpper (s : String) : String := ⟨s.data.map Char.toUpper⟩

/-- Python `str.lower` (ASCII). -/
def pyLower (s : String) : String := ⟨s.data.map Char.toLower⟩

/-- `lPrefixOf p l` is true when `p` is a prefix of `l` (Python `startswith`). -/
def lPrefixOf : List Char → List Char → Bool
  | [], _ => true
  | _ :: _, [] => false
  | p :: ps, c :: cs => p = c && lPrefixOf ps cs

/-- `lContains hay pat` is true when `pat` occurs contiguously in `hay`
(Python `pat in hay`). -/
def lContains (hay pat : List Char) : Bool :=
  match hay with
  | [] => lPrefixOf pat []
  | _ :: cs => lPrefixOf pat hay || lContains cs pat

/-- Python `pat in s` for strings. -/
def substrOf (pat s : String) : Bool := lContains s.data pat.data

/-- Python `str.strip()` on the character list. -/
def pyStripL (l : List Char) : List Char :=
  ((l.dropWhile pyIsSpace).reverse.dropWhile pyIsSpace).reverse

/-- Python `str.strip()`. -/
def pyStrip (s : String) : String := ⟨pyStripL s.data⟩

/-- `any(phrase in q for phrase in phrases)` over an already lower-cased `q`. -/
def anyPhrase (q : String) (phrases : List String) : Bool :=
  phrases.any (fun p => substrOf p q)

/-- Outcome of a Python call: a returned value or a raised exception
(carrying `str(e)`). -/
inductive PyResult (α : Type) : Type
  | ok (val : α)
  | exn (msg : String)
deriving DecidableEq

/-- True when the call returned normally instead of raising. -/
def PyResult.isOk {α : Type} : PyResult α → Bool
  | .ok _ => true
  | .exn _ => false

/-! ## SalesAgent._is_safe_query (src/agents/sales_agent.py lines 1073-1087) -/

/-- `SalesAgent.forbidden_keywords` (src/agents/sales_agent.py lines 28-31). -/
def forbidden_keywords : List String :=
  ["INSERT", "UPDATE", "DELETE", "DROP", "CREATE", "ALTER",
   "TRUNCATE", "REPLACE", "MERGE", "GRANT", "REVOKE"]

/-- `SalesAgent._is_safe_query`: upper-case the query, reject when any
forbidden keyword occurs as a substring, when the stripped text does not
start with `SELECT`, or when a semicolon occurs before the final character. -/
def is_safe_query (sql_query : String) : Bool :=
  let sql_upper := pyUpper sql_query
  if forbidden_keywords.any (fun keyword => substrOf keyword sql_upper) then false
  else if !(lPrefixOf "SELECT".data (pyStripL sql_upper.data)) then false
  else if (sql_query.data.dropLast).contains ';' then false
  else true

/-! ## Pattern-replacement machinery for the source's `re.sub`/`str.replace`
calls.  A matcher looks at the remaining text (plus, for word-boundary
patterns, the previous character) and either fails or returns how many
characters beyond the first the match consumes together with the replacement
text.  `subScanF` then performs Python's leftmost non-overlapping
replace-all.  The fuel argument (initialised to the text length) only makes
the recursion structural; it never runs out. -/

/-- Replace-all driver for a matcher `m`: at each position try `m`; on a
match emit the replacement and continue after the matched span, otherwise
keep the character.  `extra` is the match length minus one (every modelled
pattern consumes at least one character). -/
def subScanF (m : List Char → Option (Nat × List Char)) :
    Nat → List Char → List Char
  | _, [] => []
  | 0, l => l
  | fuel + 1, c :: cs =>
    match m (c :: cs) with
    | some (extra, repl) => repl ++ subScanF m fuel (cs.drop extra)
    | none => c :: subScanF m fuel cs

/-- Replace-all over a string. -/
def subAll (m : List Char → Option (Nat × List Char)) (s : String) : String :=
  ⟨subScanF m s.data.length s.data⟩

/-- True when the matcher fires at some position of the text. -/
def scanHasMatch (m : List Char → Option (Nat × List Char)) :
    List Char → Bool
  | [] => false
  | c :: cs => (m (c :: cs)).isSome || scanHasMatch m cs

/-- Replace-all driver threading the previous consumed source character, for
patterns with word boundaries (`\b`). -/
def subScanBF (m : Option Char → List Char → Option (Nat × List Char)) :
    Option Char → Nat → List Char → List Char
  | _, _, [] => []
  | _, 0, l => l
  | prev, fuel + 1, c :: cs =>
    match m prev (c :: cs) with
    | some (extra, repl) =>
      repl ++ subScanBF m (some ((c :: cs.take extra).getLast (by simp))) fuel (cs.drop extra)
    | none => c :: subScanBF m (some c) fuel cs

/-- Replace-all with boundary tracking over a string. -/
def subAllB (m : Option Char → List Char → Option (Nat × List Char))
    (s : String) : String :=
  ⟨subScanBF m none s.data.length s.data⟩

/-- Longest-prefix matcher for a literal pattern: models one step of Python
`str.replace(pat, repl)` (all occurrences, left to right). -/
def mLit (pat repl : List Char) (l : List Char) : Option (Nat × List Char) :=
  if lPrefixOf pat l && !pat.isEmpty then some (pat.length - 1, repl) else none

/-- Python `str.replace(pat, repl)` for a non-empty pattern. -/
def pyReplaceAll (s pat repl : String) : String :=
  subAll (mLit pat.data repl.data) s

/-! ## SalesAgent._generate_sql_with_llm post-processing
(src/agents/sales_agent.py lines 998-1034) -/

/-- Matcher for `re.sub(r'```sql\n?', '', ...)`. -/
def mFenceSql (l : List Char) : Option (Nat × List Char) :=
  if lPrefixOf "```sql".data l then
    match l.drop 6 with
    | '\n' :: _ => some (6, [])
    | _ => some (5, [])
  else none

/-- Matcher for `re.sub(r'```\n?', '', ...)`. -/
def mFence (l : List Char) : Option (Nat × List Char) :=
  if lPrefixOf "```".data l then
    match l.drop 3 with
    | '\n' :: _ => some (3, [])
    | _ => some (2, [])
  else none

/-- The two code-fence-stripping substitutions, in source order. -/
def strip_code_fences (s : String) : String := subAll mFence (subAll mFenceSql s)

/-- Case-insensitive literal prefix: consume `pat` from the front of `l`
comparing lower-cased characters, returning the rest on success. -/
def ciDrop (pat : String) (l : List Char) : Option (List Char) :=
  go pat.data l
where
  go : List Char → List Char → Option (List Char)
    | [], rest => some rest
    | _ :: _, [] => none
    | p :: ps, c :: cs => if p.toLower = c.toLower then go ps cs else none

/-- Backtracking matcher for the source regex
`JOIN sales_items(?: (?:AS )?si_item)? ON (?:si_item\.)?invoice_id = (?:si\.)?invoice_id`
with `re.IGNORECASE`: returns the unmatched rest of the text on success.
Alternatives are tried in the regex engine's order (optional groups first). -/
def matchJoinRest (l : List Char) : Option (List Char) :=
  match ciDrop "JOIN sales_items" l with
  | none => none
  | some r1 =>
    let afterInv : List Char → Option (List Char) := fun r =>
      match ciDrop "si." r with
      | some r' =>
        match ciDrop "invoice_id" r' with
        | some rf => some rf
        | none => ciDrop "invoice_id" r
      | none => ciDrop "invoice_id" r
    let afterOn : List Char → Option (List Char) := fun r =>
      let eqPart : List Char → Option (List Char) := fun r' =>
        match ciDrop "invoice_id = " r' with
        | some r'' => afterInv r''
        | none => none
      match ciDrop "si_item." r with
      | some r' =>
        match eqPart r' with
        | some rf => some rf
        | none => eqPart r
      | none => eqPart r
    let onPart : List Char → Option (List Char) := fun r =>
      match ciDrop " ON " r with
      | some r' => afterOn r'
      | none => none
    match ciDrop " AS si_item" r1 with
    | some ra =>
      match onPart ra with
      | some rf => some rf
      | none =>
        match ciDrop " si_item" r1 with
        | some rb =>
          match onPart rb with
          | some rf => some rf
          | none => onPart r1
        | none => onPart r1
    | none =>
      match ciDrop " si_item" r1 with
      | some rb =>
        match onPart rb with
        | some rf => some rf
        | none => onPart r1
      | none => onPart r1

/-- The injected join predicate (the regex replacement appends it to the
captured group `\1`). -/
def join_fix_suffix : List Char := " AND si_item.product_id = s.product_id".data

/-- Matcher wrapping `matchJoinRest` into a replacement: the matched text
followed by the missing product-id predicate. -/
def mJoinFix (l : List Char) : Option (Nat × List Char) :=
  match matchJoinRest l with
  | some rest =>
    let n := l.length - rest.length
    some (n - 1, l.take n ++ join_fix_suffix)
  | none => none

/-- The product-id join guard of `SalesAgent._generate_sql_with_llm`
(lines 1021-1029): only when the lower-cased SQL mentions both
`sales_items` and `stock`, and neither `sales_items.product_id` nor
`si_item.product_id` occurs literally, run the join-pattern substitution. -/
def add_product_join (sql_query : String) : String :=
  if substrOf "sales_items" (pyLower sql_query) && substrOf "stock" (pyLower sql_query) then
    if !(substrOf "sales_items.product_id" sql_query) &&
       !(substrOf "si_item.product_id" sql_query) then
      subAll mJoinFix sql_query
    else sql_query
  else sql_query

/-- `SalesAgent._generate_sql_with_llm`, with the model transport abstracted
as the completion outcome: on a raised transport error the method returns
`None`; otherwise it strips code fences, applies the product-id join guard
and returns the stripped SQL. -/
def generate_sql_with_llm (completion : PyResult String) : PyResult (Option String) :=
  match completion with
  | .exn _ => .ok none
  | .ok raw => .ok (some (pyStrip (add_product_join (strip_code_fences raw))))


/-! ## SalesAgent._generate_sql (src/agents/sales_agent.py lines 260-996)
The quick map and the ordered hardcoded branches, each returning its filled
template; when nothing matches, the method delegates to
`_generate_sql_with_llm`.  The quick-map branch calls `self._get_simple_query`,
a method that does not exist anywhere in the class, so reaching it raises
`AttributeError` with the message below. -/

/-- The keys of `quick_map` in their source (insertion) order. -/
def quick_map_phrases : List String :=
  ["what are my returns for today", "how many returns today",
   "show me returns today", "what are my sales for today",
   "show me sales today", "today sales"]

/-- Python text of the `AttributeError` raised by the quick-map branch's call
to the undefined method `_get_simple_query`. -/
def attr_err_msg : String :=
  "'SalesAgent' object has no attribute '_get_simple_query'"

/-- Template for branch "Highest revenue customers" of SalesAgent._generate_sql. -/
def tmpl_highest_revenue_customers (company_id : Int) : String :=
  "SELECT\n            c.company AS customer_name,\n            SUM(si.total - COALESCE(si.total_tax, 0)) AS total_revenue\n        FROM sales_invoice si\n        JOIN contacts c ON c.contact_id = si.customer_id\n        WHERE si.company_id = " ++ toString company_id ++ "\n          AND si.status NOT IN ('draft', 'draft_return', 'return', 'canceled')\n        GROUP BY si.customer_id, c.company\n        ORDER BY total_revenue DESC\n        LIMIT 10;"

/-- Template for branch "Lowest revenue customers" of SalesAgent._generate_sql. -/
def tmpl_lowest_revenue_customers (company_id : Int) : String :=
  "SELECT\n            c.company AS customer_name,\n            SUM(si.total - COALESCE(si.total_tax, 0)) AS total_revenue\n        FROM sales_invoice si\n        JOIN contacts c ON c.contact_id = si.customer_id\n        WHERE si.company_id = " ++ toString company_id ++ "\n          AND si.status NOT IN ('draft', 'draft_return', 'return', 'canceled')\n        GROUP BY si.customer_id, c.company\n        ORDER BY total_revenue ASC\n        LIMIT 10;"

/-- Template for branch "Customer-wise sales summary" of SalesAgent._generate_sql. -/
def tmpl_customer_wise_sales_summary (company_id : Int) : String :=
  "SELECT\n            c.company AS customer_name,\n            COUNT(si.invoice_id) AS total_invoices,\n            SUM(si.total) AS gross_sales,\n            SUM(COALESCE(si.total_tax, 0)) AS total_tax,\n            SUM(si.total - COALESCE(si.total_tax, 0)) AS net_sales\n        FROM sales_invoice si\n        JOIN contacts c ON c.contact_id = si.customer_id\n        WHERE si.company_id = " ++ toString company_id ++ "\n          AND si.status NOT IN ('draft', 'draft_return', 'return', 'canceled')\n        GROUP BY si.customer_id, c.company\n        ORDER BY net_sales DESC\n        LIMIT 50;"

/-- Template for branch "Customers not purchased in 30 days" of SalesAgent._generate_sql. -/
def tmpl_customers_not_purchased_in_30_days (company_id : Int) : String :=
  "SELECT\n            c.company AS customer_name,\n            MAX(si_all.invoice_date) AS last_invoice_date\n        FROM contacts c\n        LEFT JOIN sales_invoice si_recent\n            ON si_recent.customer_id = c.contact_id\n            AND si_recent.company_id = " ++ toString company_id ++ "\n            AND si_recent.status NOT IN ('draft', 'draft_return', 'return', 'canceled')\n            AND si_recent.invoice_date >= CURDATE() - INTERVAL 30 DAY\n        LEFT JOIN sales_invoice si_all\n            ON si_all.customer_id = c.contact_id\n            AND si_all.company_id = " ++ toString company_id ++ "\n            AND si_all.status NOT IN ('draft', 'draft_return', 'return', 'canceled')\n        WHERE si_recent.invoice_id IS NULL\n        GROUP BY c.company\n        ORDER BY last_invoice_date DESC\n        LIMIT 10;"

/-- Template for branch "Customers not purchased in 60 days" of SalesAgent._generate_sql. -/
def tmpl_customers_not_purchased_in_60_days (company_id : Int) : String :=
  "SELECT\n            c.company AS customer_name,\n            MAX(si_all.invoice_date) AS last_invoice_date\n        FROM contacts c\n        LEFT JOIN sales_invoice si_recent\n            ON si_recent.customer_id = c.contact_id\n            AND si_recent.company_id = " ++ toString company_id ++ "\n            AND si_recent.status NOT IN ('draft', 'draft_return', 'return', 'canceled')\n            AND si_recent.invoice_date >= CURDATE() - INTERVAL 60 DAY\n        LEFT JOIN sales_invoice si_all\n            ON si_all.customer_id = c.contact_id\n            AND si_all.company_id = " ++ toString company_id ++ "\n            AND si_all.status NOT IN ('draft', 'draft_return', 'return', 'canceled')\n        WHERE si_recent.invoice_id IS NULL\n        GROUP BY c.company\n        ORDER BY last_invoice_date DESC\n        LIMIT 10;"

/-- Template for branch "Customers not purchased in 90 days" of SalesAgent._generate_sql. -/
def tmpl_customers_not_purchased_in_90_days (company_id : Int) : String :=
  "SELECT\n            c.company AS customer_name,\n            MAX(si_all.invoice_date) AS last_invoice_date\n        FROM contacts c\n        LEFT JOIN sales_invoice si_recent\n            ON si_recent.customer_id = c.contact_id\n            AND si_recent.company_id = " ++ toString company_id ++ "\n            AND si_recent.status NOT IN ('draft', 'draft_return', 'return', 'canceled')\n            AND si_recent.invoice_date >= CURDATE() - INTERVAL 90 DAY\n        LEFT JOIN sales_invoice si_all\n            ON si_all.customer_id = c.contact_id\n            AND si_all.company_id = " ++ toString company_id ++ "\n            AND si_all.status NOT IN ('draft', 'draft_return', 'return', 'canceled')\n        WHERE si_recent.invoice_id IS NULL\n        GROUP BY c.company\n        ORDER BY last_invoice_date DESC\n        LIMIT 10;"

/-- Template for branch "Total sales today" of SalesAgent._generate_sql. -/
def tmpl_total_sales_today (company_id : Int) : String :=
  "SELECT\n            SUM(sales_invoice.total - COALESCE(sales_invoice.total_tax, 0)) AS total_sales\n        FROM sales_invoice\n        WHERE sales_invoice.company_id = " ++ toString company_id ++ "\n          AND sales_invoice.invoice_date >= CURDATE()\n          AND sales_invoice.invoice_date < CURDATE() + INTERVAL 1 DAY\n          AND sales_invoice.status NOT IN ('draft', 'draft_return', 'return', 'canceled');"

/-- Template for branch "Total sales this month" of SalesAgent._generate_sql. -/
def tmpl_total_sales_this_month (company_id : Int) : String :=
  "SELECT\n            SUM(sales_invoice.total - COALESCE(sales_invoice.total_tax, 0)) AS total_sales\n        FROM sales_invoice\n        WHERE sales_invoice.company_id = " ++ toString company_id ++ "\n          AND sales_invoice.invoice_date >= DATE_FORMAT(CURDATE(), '%Y-%m-01')\n          AND sales_invoice.invoice_date < CURDATE() + INTERVAL 1 DAY\n          AND sales_invoice.status NOT IN ('draft', 'draft_return', 'return', 'canceled');"

/-- Template for branch "Total sales this year" of SalesAgent._generate_sql. -/
def tmpl_total_sales_this_year (company_id : Int) : String :=
  "SELECT\n            SUM(sales_invoice.total - COALESCE(sales_invoice.total_tax, 0)) AS total_sales\n        FROM sales_invoice\n        WHERE sales_invoice.company_id = " ++ toString company_id ++ "\n          AND sales_invoice.invoice_date >= DATE_FORMAT(CURDATE(), '%Y-01-01')\n          AND sales_invoice.invoice_date < CURDATE() + INTERVAL 1 DAY\n          AND sales_invoice.status NOT IN ('draft', 'draft_return', 'return', 'canceled');"

/-- Template for branch "Total returns today" of SalesAgent._generate_sql. -/
def tmpl_total_returns_today (company_id : Int) : String :=
  "SELECT\n            SUM(sales_invoice.total - COALESCE(sales_invoice.total_tax, 0)) AS total_returns\n        FROM sales_invoice\n        WHERE sales_invoice.company_id = " ++ toString company_id ++ "\n          AND sales_invoice.invoice_date >= CURDATE()\n          AND sales_invoice.invoice_date < CURDATE() + INTERVAL 1 DAY\n          AND sales_invoice.status = 'return';"

/-- Template for branch "Total returns this month" of SalesAgent._generate_sql. -/
def tmpl_total_returns_this_month (company_id : Int) : String :=
  "SELECT\n            SUM(sales_invoice.total - COALESCE(sales_invoice.total_tax, 0)) AS total_returns\n        FROM sales_invoice\n        WHERE sales_invoice.company_id = " ++ toString company_id ++ "\n          AND sales_invoice.invoice_date >= DATE_FORMAT(CURDATE(), '%Y-%m-01')\n          AND sales_invoice.invoice_date < CURDATE() + INTERVAL 1 DAY\n          AND sales_invoice.status = 'return';"

/-- Template for branch "Total returns this year" of SalesAgent._generate_sql. -/
def tmpl_total_returns_this_year (company_id : Int) : String :=
  "SELECT\n            SUM(sales_invoice.total - COALESCE(sales_invoice.total_tax, 0)) AS total_returns\n        FROM sales_invoice\n        WHERE sales_invoice.company_id = " ++ toString company_id ++ "\n          AND sales_invoice.invoice_date >= DATE_FORMAT(CURDATE(), '%Y-01-01')\n          AND sales_invoice.invoice_date < CURDATE() + INTERVAL 1 DAY\n          AND sales_invoice.status = 'return';"

/-- Template for branch "Net sales today" of SalesAgent._generate_sql. -/
def tmpl_net_sales_today (company_id : Int) : String :=
  "SELECT\n            COALESCE(\n                SUM(\n                    CASE\n                        WHEN sales_invoice.status = 'return' THEN -(\n                            sales_invoice.total - COALESCE(sales_invoice.total_tax, 0)\n                        )\n                        ELSE (\n                            sales_invoice.total - COALESCE(sales_invoice.total_tax, 0)\n                        )\n                    END\n                ),\n                0\n            ) AS net_sales\n        FROM sales_invoice\n        WHERE sales_invoice.company_id = " ++ toString company_id ++ "\n          AND sales_invoice.invoice_date >= CURDATE()\n          AND sales_invoice.invoice_date < CURDATE() + INTERVAL 1 DAY\n          AND sales_invoice.status NOT IN('draft', 'draft_return', 'canceled');"

/-- Template for branch "Net sales this month" of SalesAgent._generate_sql. -/
def tmpl_net_sales_this_month (company_id : Int) : String :=
  "SELECT\n            COALESCE(\n                SUM(\n                    CASE\n                        WHEN sales_invoice.status = 'return' THEN -(\n                            sales_invoice.total - COALESCE(sales_invoice.total_tax, 0)\n                        )\n                        ELSE (\n                            sales_invoice.total - COALESCE(sales_invoice.total_tax, 0)\n                        )\n                    END\n                ),\n                0\n            ) AS net_sales\n        FROM sales_invoice\n        WHERE sales_invoice.company_id = " ++ toString company_id ++ "\n          AND sales_invoice.invoice_date >= DATE_FORMAT(CURDATE(), '%Y-%m-01')\n          AND sales_invoice.invoice_date < CURDATE() + INTERVAL 1 DAY\n          AND sales_invoice.status NOT IN('draft', 'draft_return', 'canceled');"

/-- Template for branch "Net sales this year" of SalesAgent._generate_sql. -/
def tmpl_net_sales_this_year (company_id : Int) : String :=
  "SELECT\n            COALESCE(\n                SUM(\n                    CASE\n                        WHEN sales_invoice.status = 'return' THEN -(\n                            sales_invoice.total - COALESCE(sales_invoice.total_tax, 0)\n                        )\n                        ELSE (\n                            sales_invoice.total - COALESCE(sales_invoice.total_tax, 0)\n                        )\n                    END\n                ),\n                0\n            ) AS net_sales\n        FROM sales_invoice\n        WHERE sales_invoice.company_id = " ++ toString company_id ++ "\n          AND sales_invoice.invoice_date >= DATE_FORMAT(CURDATE(), '%Y-01-01')\n          AND sales_invoice.invoice_date < CURDATE() + INTERVAL 1 DAY\n          AND sales_invoice.status NOT IN ('draft', 'draft_return', 'canceled');"

/-- Template for branch "Compare this month vs last month" of SalesAgent._generate_sql. -/
def tmpl_compare_this_month_vs_last_month (company_id : Int) : String :=
  "SELECT\n            COALESCE(SUM(CASE\n                WHEN sales_invoice.invoice_date >= DATE_FORMAT(CURDATE(), '%Y-%m-01')\n                 AND sales_invoice.invoice_date < CURDATE() + INTERVAL 1 DAY\n                 AND sales_invoice.status NOT IN ('draft', 'draft_return', 'return', 'canceled')\n                THEN sales_invoice.total - COALESCE(sales_invoice.total_tax, 0)\n                ELSE 0\n            END), 0) AS total_sales_this_month,\n            COALESCE(SUM(CASE\n                WHEN sales_invoice.invoice_date >= DATE_FORMAT(CURDATE() - INTERVAL 1 MONTH, '%Y-%m-01')\n                 AND sales_invoice.invoice_date < DATE_FORMAT(CURDATE(), '%Y-%m-01')\n                 AND sales_invoice.status NOT IN ('draft', 'draft_return', 'return', 'canceled')\n                THEN sales_invoice.total - COALESCE(sales_invoice.total_tax, 0)\n                ELSE 0\n            END), 0) AS total_sales_last_month\n        FROM sales_invoice\n        WHERE sales_invoice.company_id = " ++ toString company_id ++ ";"

/-- Template for branch "Compare this year vs last year" of SalesAgent._generate_sql. -/
def tmpl_compare_this_year_vs_last_year (company_id : Int) : String :=
  "SELECT\n            COALESCE(SUM(CASE\n                WHEN sales_invoice.invoice_date >= DATE_FORMAT(CURDATE(), '%Y-01-01')\n                 AND sales_invoice.invoice_date < CURDATE() + INTERVAL 1 DAY\n                 AND sales_invoice.status NOT IN ('draft', 'draft_return', 'return', 'canceled')\n                THEN sales_invoice.total - COALESCE(sales_invoice.total_tax, 0)\n                ELSE 0\n            END), 0) AS total_sales_this_year,\n            COALESCE(SUM(CASE\n                WHEN sales_invoice.invoice_date >= DATE_FORMAT(CURDATE() - INTERVAL 1 YEAR, '%Y-01-01')\n                 AND sales_invoice.invoice_date < DATE_FORMAT(CURDATE(), '%Y-01-01')\n                 AND sales_invoice.status NOT IN ('draft', 'draft_return', 'return', 'canceled')\n                THEN sales_invoice.total - COALESCE(sales_invoice.total_tax, 0)\n                ELSE 0\n            END), 0) AS total_sales_last_year\n        FROM sales_invoice\n        WHERE sales_invoice.company_id = " ++ toString company_id ++ ";"

/-- Template for branch "Day with highest sales" of SalesAgent._generate_sql. -/
def tmpl_day_with_highest_sales (company_id : Int) : String :=
  "SELECT\n            DATE(invoice_date) AS sales_day,\n            SUM(total - COALESCE(total_tax, 0)) AS total_sales\n        FROM sales_invoice\n        WHERE company_id = " ++ toString company_id ++ "\n          AND status NOT IN ('draft', 'draft_return', 'return', 'canceled')\n        GROUP BY DATE(invoice_date)\n        ORDER BY total_sales DESC\n        LIMIT 1;"

/-- Template for branch "Day with lowest sales" of SalesAgent._generate_sql. -/
def tmpl_day_with_lowest_sales (company_id : Int) : String :=
  "SELECT\n            DATE(invoice_date) AS sales_day,\n            SUM(total - COALESCE(total_tax, 0)) AS total_sales\n        FROM sales_invoice\n        WHERE company_id = " ++ toString company_id ++ "\n          AND status NOT IN ('draft', 'draft_return', 'return', 'canceled')\n        GROUP BY DATE(invoice_date)\n        ORDER BY total_sales ASC\n        LIMIT 1;"

/-- Template for branch "Total number of sales invoices" of SalesAgent._generate_sql. -/
def tmpl_total_number_of_sales_invoices (company_id : Int) : String :=
  "SELECT\n            COUNT(invoice_id) AS total_sales_invoices\n        FROM sales_invoice\n        WHERE company_id = " ++ toString company_id ++ "\n          AND status NOT IN ('draft', 'draft_return', 'return', 'canceled');"

/-- Template for branch "Sales trend last 12 months" of SalesAgent._generate_sql. -/
def tmpl_sales_trend_last_12_months (company_id : Int) : String :=
  "SELECT\n            DATE_FORMAT(invoice_date, '%Y-%m') AS month,\n            SUM(total - COALESCE(total_tax, 0)) AS total_sales\n        FROM sales_invoice\n        WHERE company_id = " ++ toString company_id ++ "\n          AND invoice_date >= DATE_FORMAT(CURDATE() - INTERVAL 11 MONTH, '%Y-%m-01')\n          AND status NOT IN ('draft', 'draft_return', 'return', 'canceled')\n        GROUP BY DATE_FORMAT(invoice_date, '%Y-%m')\n        ORDER BY month ASC;"

/-- Template for branch "Branch with highest sales" of SalesAgent._generate_sql. -/
def tmpl_branch_with_highest_sales (company_id : Int) : String :=
  "SELECT\n            w.title AS branch_name,\n            SUM(si.total - COALESCE(si.total_tax, 0)) AS total_sales\n        FROM sales_invoice si\n        JOIN warehouses w ON si.warehouse_id = w.warehouse_id\n        WHERE si.company_id = " ++ toString company_id ++ "\n          AND si.status NOT IN ('draft', 'draft_return', 'return', 'canceled')\n        GROUP BY si.warehouse_id, w.title\n        ORDER BY total_sales DESC\n        LIMIT 1;"

/-- Template for branch "Branch with lowest sales" of SalesAgent._generate_sql. -/
def tmpl_branch_with_lowest_sales (company_id : Int) : String :=
  "SELECT\n            w.title AS branch_name,\n            SUM(si.total - COALESCE(si.total_tax, 0)) AS total_sales\n        FROM sales_invoice si\n        JOIN warehouses w ON si.warehouse_id = w.warehouse_id\n        WHERE si.company_id = " ++ toString company_id ++ "\n          AND si.status NOT IN ('draft', 'draft_return', 'return', 'canceled')\n        GROUP BY si.warehouse_id, w.title\n        ORDER BY total_sales ASC\n        LIMIT 1;"

/-- Template for branch "Sales by salesperson" of SalesAgent._generate_sql. -/
def tmpl_sales_by_salesperson (company_id : Int) : String :=
  "SELECT\n            CONCAT(u.firstname, ' ', u.lastname) AS salesperson_name,\n            SUM(si.total - COALESCE(si.total_tax, 0)) AS total_sales\n        FROM sales_invoice si\n        LEFT JOIN users u ON si.salesman = u.user_id\n        WHERE si.company_id = " ++ toString company_id ++ "\n          AND si.salesman > 0\n          AND si.status NOT IN ('draft', 'draft_return', 'return', 'canceled')\n        GROUP BY si.salesman, u.firstname, u.lastname\n        ORDER BY total_sales DESC;"

/-- Template for branch "Salesperson with highest sales" of SalesAgent._generate_sql. -/
def tmpl_salesperson_with_highest_sales (company_id : Int) : String :=
  "SELECT\n            CONCAT(u.firstname, ' ', u.lastname) AS salesperson_name,\n            SUM(si.total - COALESCE(si.total_tax, 0)) AS total_sales\n        FROM sales_invoice si\n        LEFT JOIN users u ON si.salesman = u.user_id\n        WHERE si.company_id = " ++ toString company_id ++ "\n          AND si.salesman > 0\n          AND si.status NOT IN ('draft', 'draft_return', 'return', 'canceled')\n        GROUP BY si.salesman, u.firstname, u.lastname\n        ORDER BY total_sales DESC\n        LIMIT 1;"

/-- Template for branch "Salesperson with lowest sales" of SalesAgent._generate_sql. -/
def tmpl_salesperson_with_lowest_sales (company_id : Int) : String :=
  "SELECT\n            CONCAT(u.firstname, ' ', u.lastname) AS salesperson_name,\n            SUM(si.total - COALESCE(si.total_tax, 0)) AS total_sales\n        FROM sales_invoice si\n        LEFT JOIN users u ON si.salesman = u.user_id\n        WHERE si.company_id = " ++ toString company_id ++ "\n          AND si.salesman > 0\n          AND si.status NOT IN ('draft', 'draft_return', 'return', 'canceled')\n        GROUP BY si.salesman, u.firstname, u.lastname\n        ORDER BY total_sales ASC\n        LIMIT 1;"

/-- Template for branch "Top 10 products by quantity" of SalesAgent._generate_sql. -/
def tmpl_top_10_products_by_quantity (company_id : Int) : String :=
  "SELECT\n            p.name AS product_name,\n            SUM(ABS(s.quantity)) AS total_sold_qty\n        FROM stock s\n        JOIN products p ON s.product_id = p.product_id\n        JOIN sales_invoice si ON si.invoice_id = s.invoice_id\n        WHERE s.company_id = " ++ toString company_id ++ "\n          AND s.quantity < 0\n          AND s.stock_type = 'sales'\n          AND si.status != 'canceled'\n        GROUP BY s.product_id, p.name\n        ORDER BY total_sold_qty DESC\n        LIMIT 10;"

/-- Template for branch "Slow-moving products" of SalesAgent._generate_sql. -/
def tmpl_slow_moving_products (company_id : Int) : String :=
  "SELECT\n            p.name AS product_name,\n            SUM(ABS(s.quantity)) AS total_sold_qty\n        FROM stock s\n        JOIN products p ON s.product_id = p.product_id\n        JOIN sales_invoice si ON si.invoice_id = s.invoice_id\n        WHERE s.company_id = " ++ toString company_id ++ "\n          AND s.quantity < 0\n          AND s.stock_type = 'sales'\n          AND si.status != 'canceled'\n        GROUP BY s.product_id, p.name\n        ORDER BY total_sold_qty ASC\n        LIMIT 10;"

/-- Template for branch "Top 10 products by value" of SalesAgent._generate_sql (note: no company_id placeholder in the source). -/
def tmpl_top_10_products_by_value : String :=
  "SELECT\n        p.name AS product_name,\n        SUM(ABS(s.quantity) * (sales_items.price - sales_items.discount)) AS total_sales_value\n    FROM stock s\n    JOIN products p ON s.product_id = p.product_id\n    JOIN sales_invoice si ON si.invoice_id = s.invoice_id\n    JOIN sales_items ON sales_items.invoice_id = si.invoice_id\n    WHERE s.company_id = 1336\n      AND s.quantity < 0\n      AND s.stock_type = 'sales'\n      AND si.status != 'canceled'\n    GROUP BY s.product_id, p.name\n    ORDER BY total_sales_value DESC\n    LIMIT 10;"

/-- Template for branch "Category with highest sales" of SalesAgent._generate_sql. -/
def tmpl_category_with_highest_sales (company_id : Int) : String :=
  "SELECT\n            c.title AS category_name,\n            SUM(ABS(s.quantity)) AS total_sold_qty\n        FROM stock s\n        JOIN products p ON p.product_id = s.product_id\n        JOIN products_category c ON c.category_id = p.category_id\n        JOIN sales_invoice si ON si.invoice_id = s.invoice_id\n        WHERE s.company_id = " ++ toString company_id ++ "\n          AND s.stock_type = 'sales'\n          AND s.quantity < 0\n          AND si.status != 'canceled'\n        GROUP BY c.category_id, c.title\n        ORDER BY total_sold_qty DESC\n        LIMIT 1;"

/-- Template for branch "Category with lowest sales" of SalesAgent._generate_sql. -/
def tmpl_category_with_lowest_sales (company_id : Int) : String :=
  "SELECT\n            c.title AS category_name,\n            SUM(ABS(s.quantity)) AS total_sold_qty\n        FROM stock s\n        JOIN products p ON p.product_id = s.product_id\n        JOIN products_category c ON c.category_id = p.category_id\n        JOIN sales_invoice si ON si.invoice_id = s.invoice_id\n        WHERE s.company_id = " ++ toString company_id ++ "\n          AND s.stock_type = 'sales'\n          AND s.quantity < 0\n          AND si.status != 'canceled'\n        GROUP BY c.category_id, c.title\n        ORDER BY total_sold_qty ASC\n        LIMIT 1;"

/-- Template for branch "Product with highest revenue" of SalesAgent._generate_sql. -/
def tmpl_product_with_highest_revenue (company_id : Int) : String :=
  "SELECT\n            p.name AS product_name,\n            SUM(ABS(s.quantity) * (si_item.price - si_item.discount)) AS total_revenue\n        FROM stock s\n        JOIN products p ON s.product_id = p.product_id\n        JOIN sales_invoice si ON si.invoice_id = s.invoice_id\n        JOIN sales_items si_item ON si_item.invoice_id = si.invoice_id\n        WHERE s.company_id = " ++ toString company_id ++ "\n          AND s.stock_type = 'sales'\n          AND s.quantity < 0\n          AND si.status != 'canceled'\n        GROUP BY s.product_id, p.name\n        ORDER BY total_revenue DESC\n        LIMIT 1;"

/-- Template for branch "Product with highest profit" of SalesAgent._generate_sql. -/
def tmpl_product_with_highest_profit (company_id : Int) : String :=
  "SELECT\n            p.name AS product_name,\n            SUM(ABS(s.quantity) * ((si_item.price - si_item.discount) - s.cost)) AS total_profit\n        FROM stock s\n        JOIN products p ON p.product_id = s.product_id\n        JOIN sales_invoice si ON si.invoice_id = s.invoice_id\n        JOIN sales_items si_item ON si_item.invoice_id = si.invoice_id\n        WHERE s.company_id = " ++ toString company_id ++ "\n          AND s.stock_type = 'sales'\n          AND s.quantity < 0\n          AND si.status != 'canceled'\n        GROUP BY s.product_id, p.name\n        ORDER BY total_profit DESC\n        LIMIT 1;"

/-- Template for branch "Product with lowest revenue" of SalesAgent._generate_sql. -/
def tmpl_product_with_lowest_revenue (company_id : Int) : String :=
  "SELECT\n            p.name AS product_name,\n            SUM(ABS(s.quantity) * (si_item.price - si_item.discount)) AS total_revenue\n        FROM stock s\n        JOIN products p ON s.product_id = p.product_id\n        JOIN sales_invoice si ON si.invoice_id = s.invoice_id\n        JOIN sales_items si_item ON si_item.invoice_id = si.invoice_id\n        WHERE s.company_id = " ++ toString company_id ++ "\n          AND s.stock_type = 'sales'\n          AND s.quantity < 0\n          AND si.status != 'canceled'\n        GROUP BY s.product_id, p.name\n        ORDER BY total_revenue ASC\n        LIMIT 1;"

/-- Template for branch "Product with lowest profit" of SalesAgent._generate_sql. -/
def tmpl_product_with_lowest_profit (company_id : Int) : String :=
  "SELECT\n            p.name AS product_name,\n            SUM(ABS(s.quantity) * ((si_item.price - si_item.discount) - s.cost)) AS total_profit\n        FROM stock s\n        JOIN products p ON s.product_id = p.product_id\n        JOIN sales_invoice si ON si.invoice_id = s.invoice_id\n        JOIN sales_items si_item ON si_item.invoice_id = si.invoice_id\n        WHERE s.company_id = " ++ toString company_id ++ "\n          AND s.stock_type = 'sales'\n          AND s.quantity < 0\n          AND si.status != 'canceled'\n        GROUP BY s.product_id, p.name\n        ORDER BY total_profit ASC\n        LIMIT 1;"


/-- `SalesAgent._generate_sql`: quick map first (raising `AttributeError`),
then the hardcoded branches in source order, else the LLM fallback. -/
def run_generate_sql (user_question : String) (company_id : Int)
    (completion : PyResult String) : PyResult (Option String) :=
  let ql := pyLower user_question
  if quick_map_phrases.any (fun p => substrOf p ql) then
    PyResult.exn attr_err_msg
  else if anyPhrase ql ["highest revenue customers", "top revenue customers", "best customers", "customers who spend the most", "top 10 customers"] then PyResult.ok (some (tmpl_highest_revenue_customers company_id))
  else if anyPhrase ql ["lowest revenue customers", "worst customers", "lowest spending customers"] then PyResult.ok (some (tmpl_lowest_revenue_customers company_id))
  else if anyPhrase ql ["customer wise sales summary", "customer sales summary", "sales by customer", "customer sales report"] then PyResult.ok (some (tmpl_customer_wise_sales_summary company_id))
  else if (substrOf "30 days" ql && (substrOf "not purchased" ql || substrOf "inactive" ql)) then PyResult.ok (some (tmpl_customers_not_purchased_in_30_days company_id))
  else if (substrOf "60 days" ql && (substrOf "not purchased" ql || substrOf "inactive" ql)) then PyResult.ok (some (tmpl_customers_not_purchased_in_60_days company_id))
  else if (substrOf "90 days" ql && (substrOf "not purchased" ql || substrOf "inactive" ql)) then PyResult.ok (some (tmpl_customers_not_purchased_in_90_days company_id))
  else if anyPhrase ql ["total sales today", "sales today", "today sales", "sales for today", "what are my sales today"] then PyResult.ok (some (tmpl_total_sales_today company_id))
  else if anyPhrase ql ["total sales this month", "sales this month"] then PyResult.ok (some (tmpl_total_sales_this_month company_id))
  else if anyPhrase ql ["total sales this year", "sales this year"] then PyResult.ok (some (tmpl_total_sales_this_year company_id))
  else if anyPhrase ql ["total returns today", "returns today"] then PyResult.ok (some (tmpl_total_returns_today company_id))
  else if anyPhrase ql ["total returns today", "returns today", "today returns", "returns for today", "what are my returns today"] then PyResult.ok (some (tmpl_total_returns_this_month company_id))
  else if anyPhrase ql ["total returns this year", "returns this year"] then PyResult.ok (some (tmpl_total_returns_this_year company_id))
  else if anyPhrase ql ["net sales today"] then PyResult.ok (some (tmpl_net_sales_today company_id))
  else if anyPhrase ql ["net sales this month"] then PyResult.ok (some (tmpl_net_sales_this_month company_id))
  else if anyPhrase ql ["net sales this year"] then PyResult.ok (some (tmpl_net_sales_this_year company_id))
  else if anyPhrase ql ["compare this month vs last month", "compare this month with last month", "month vs month", "month comparison"] then PyResult.ok (some (tmpl_compare_this_month_vs_last_month company_id))
  else if anyPhrase ql ["compare this year vs last year", "compare this year with last year", "year vs year", "year comparison"] then PyResult.ok (some (tmpl_compare_this_year_vs_last_year company_id))
  else if anyPhrase ql ["day with highest sales", "highest sales day", "best sales day"] then PyResult.ok (some (tmpl_day_with_highest_sales company_id))
  else if anyPhrase ql ["day with lowest sales", "lowest sales day", "worst sales day"] then PyResult.ok (some (tmpl_day_with_lowest_sales company_id))
  else if anyPhrase ql ["total number of sales invoices", "how many invoices", "total invoices", "count of invoices"] then PyResult.ok (some (tmpl_total_number_of_sales_invoices company_id))
  else if anyPhrase ql ["sales trend last 12 months", "sales trend", "monthly sales trend", "last 12 months trend"] then PyResult.ok (some (tmpl_sales_trend_last_12_months company_id))
  else if anyPhrase ql ["branch with highest sales", "warehouse with highest sales", "highest sales branch", "top performing branch"] then PyResult.ok (some (tmpl_branch_with_highest_sales company_id))
  else if anyPhrase ql ["branch with lowest sales", "warehouse with lowest sales", "lowest sales branch", "worst performing branch"] then PyResult.ok (some (tmpl_branch_with_lowest_sales company_id))
  else if anyPhrase ql ["sales by salesperson", "salesperson sales", "sales by rep", "show sales by salesperson"] then PyResult.ok (some (tmpl_sales_by_salesperson company_id))
  else if anyPhrase ql ["salesperson with highest sales", "top salesperson", "best performing salesperson"] then PyResult.ok (some (tmpl_salesperson_with_highest_sales company_id))
  else if anyPhrase ql ["salesperson with lowest sales", "worst salesperson", "lowest performing salesperson"] then PyResult.ok (some (tmpl_salesperson_with_lowest_sales company_id))
  else if anyPhrase ql ["top 10 products by quantity", "top products by quantity", "fast moving products", "fast-moving items"] then PyResult.ok (some (tmpl_top_10_products_by_quantity company_id))
  else if anyPhrase ql ["slow moving products", "slow-moving products", "lowest selling products", "worst selling products"] then PyResult.ok (some (tmpl_slow_moving_products company_id))
  else if anyPhrase ql ["top 10 products by value", "top products by value", "highest value products", "products by value", "products with highest revenue", "most valuable products", "highest revenue products"] then PyResult.ok (some (tmpl_top_10_products_by_value))
  else if anyPhrase ql ["category with highest sales", "highest sales category", "best performing category"] then PyResult.ok (some (tmpl_category_with_highest_sales company_id))
  else if anyPhrase ql ["category with lowest sales", "lowest sales category", "worst performing category"] then PyResult.ok (some (tmpl_category_with_lowest_sales company_id))
  else if anyPhrase ql ["product with highest revenue", "highest revenue product", "top revenue product"] then PyResult.ok (some (tmpl_product_with_highest_revenue company_id))
  else if anyPhrase ql ["product with highest profit", "highest profit product", "most profitable product"] then PyResult.ok (some (tmpl_product_with_highest_profit company_id))
  else if anyPhrase ql ["product with lowest revenue", "lowest revenue product"] then PyResult.ok (some (tmpl_product_with_lowest_revenue company_id))
  else if anyPhrase ql ["product with lowest profit", "lowest profit product"] then PyResult.ok (some (tmpl_product_with_lowest_profit company_id))
  else generate_sql_with_llm completion

/-! ## SalesAgent.process_query (src/agents/sales_agent.py lines 155-180) -/

/-- The `except` block of `process_query`: the error text, with the SQL box
appended only when `sql_query` was already bound when the exception arose. -/
def error_response (e : String) (sql_in_locals : Option String) : String :=
  "❌ Error processing query: " ++ e ++ "\n\n" ++
  (match sql_in_locals with
   | some sql => "**SQL Query:**\n```sql\n" ++ sql ++ "\n```"
   | none => "")

/-- `SalesAgent.process_query`, with the collaborators abstracted: `completion`
is the Groq transport's outcome inside `_generate_sql_with_llm`, `dbExec` the
outcome of `db.execute_query` on the generated SQL (any rows type `ρ`), and
`fmt` the outcome of `_format_results` on those rows.  Every failure is caught
at this boundary and converted to text. -/
def process_query {ρ : Type} (message : String) (company_id : Int)
    (completion : PyResult String)
    (dbExec : String → PyResult ρ) (fmt : ρ → PyResult String) : PyResult String :=
  match run_generate_sql message company_id completion with
  | .exn e => .ok (error_response e none)
  | .ok none => .ok "❌ Could not generate a valid query. Please rephrase your question."
  | .ok (some sql_query) =>
    if sql_query = "" then
      .ok "❌ Could not generate a valid query. Please rephrase your question."
    else if !(is_safe_query sql_query) then
      .ok "🚫 Safety violation: Query attempted to modify data. Only SELECT queries are allowed."
    else
      match dbExec sql_query with
      | .exn e => .ok (error_response e (some sql_query))
      | .ok result =>
        match fmt result with
        | .exn e => .ok (error_response e (some sql_query))
        | .ok formatted =>
          .ok (formatted ++ "\n\n---\n**🔍 SQL Query Executed:**\n```sql\n" ++ sql_query ++ "\n```")

/-! ## DatabaseConnection._validate_read_only and execute_query
(src/database/db_connection.py lines 85-147) -/

/-- Matcher for the string-literal pattern `("[^"]*"|'[^']*')`, replaced by
`''` before the keyword scan. -/
def mStrLitRe : List Char → Option (Nat × List Char)
  | '"' :: rest =>
    match rest.findIdx? (fun c => c = '"') with
    | some k => some (k + 1, ['\'', '\''])
    | none => none
  | '\'' :: rest =>
    match rest.findIdx? (fun c => c = '\'') with
    | some k => some (k + 1, ['\'', '\''])
    | none => none
  | _ => none

/-- First index at which `pat` starts inside the text. -/
def idxOfSeq (pat : List Char) : List Char → Option Nat
  | [] => if lPrefixOf pat [] then some 0 else none
  | c :: cs =>
    if lPrefixOf pat (c :: cs) then some 0
    else (idxOfSeq pat cs).map (· + 1)

/-- Matcher for the comment pattern `(--[^\n]*|/\*.*?\*/)` (DOTALL), removed
before the keyword scan. -/
def mCommentRe : List Char → Option (Nat × List Char)
  | '-' :: '-' :: rest => some (1 + (rest.takeWhile (fun c => c != '\n')).length, [])
  | '/' :: '*' :: rest =>
    match idxOfSeq "*/".data rest with
    | some i => some (i + 3, [])
    | none => none
  | _ => none

/-- Python `str.split(';')` on the character list (keeps empty segments). -/
def splitOnSemi : List Char → List (List Char)
  | [] => [[]]
  | c :: cs =>
    if c = ';' then [] :: splitOnSemi cs
    else
      match splitOnSemi cs with
      | r :: rs => (c :: r) :: rs
      | [] => [[c]]

/-- `statement.split()[0]`: the first whitespace-delimited word. -/
def firstWordL (l : List Char) : List Char :=
  (l.dropWhile pyIsSpace).takeWhile (fun c => !pyIsSpace c)

/-- The executor's `write_keywords` list (note: unlike the agent's
`forbidden_keywords`, it has no MERGE, GRANT or REVOKE). -/
def write_keywords : List String :=
  ["INSERT", "UPDATE", "DELETE", "DROP",
   "CREATE", "ALTER", "TRUNCATE", "REPLACE"]

/-- `DatabaseConnection._validate_read_only`: strip string literals, strip
comments, upper-case and trim, split on `;`, and raise when the FIRST WORD of
any statement is one of `write_keywords`. -/
def validate_read_only (query : String) : Except String Unit :=
  let query_clean : String := subAll mCommentRe (subAll mStrLitRe query)
  let query_upper : List Char := pyStripL (query_clean.data.map Char.toUpper)
  let statements := ((splitOnSemi query_upper).map pyStripL).filter (fun s => !s.isEmpty)
  match statements.find? (fun st => write_keywords.any (fun k => k.data == firstWordL st)) with
  | some st =>
    .error ("Security violation: Write operation '" ++ (⟨firstWordL st⟩ : String) ++
      "' blocked. This is a read-only connection.")
  | none => .ok ()

/-- `DatabaseConnection.execute_query`: validates first (propagating the
security exception), then runs the statement; driver errors are caught and
yield `None`. -/
def execute_query {ρ : Type} (run : String → PyResult ρ) (query : String) :
    PyResult (Option ρ) :=
  match validate_read_only query with
  | .error e => .exn e
  | .ok _ =>
    match run query with
    | .exn _ => .ok none
    | .ok r => .ok (some r)

/-! ## SalesAgent._fix_common_sql_errors (src/agents/sales_agent.py
lines 1036-1071) -/

/-- The regex word class `\w` on the repository's ASCII data. -/
def isWordChar (c : Char) : Bool := c.isAlphanum || c = '_'

/-- `\b` holds before the match: previous character absent or not a word
character (the pattern starts with a word character). -/
def boundaryBefore : Option Char → Bool
  | none => true
  | some p => !isWordChar p

/-- `\b` holds after the match: next character absent or not a word character
(the pattern ends with a word character). -/
def boundaryAfter : List Char → Bool
  | [] => true
  | d :: _ => !isWordChar d

/-- Matcher for Fix 2's `re.sub(r'\bc\.name\b', 'c.company', ...)`. -/
def mCNameCompany (prev : Option Char) (l : List Char) : Option (Nat × List Char) :=
  if lPrefixOf "c.name".data l && boundaryBefore prev && boundaryAfter (l.drop 6) then
    some (5, "c.company".data)
  else none

/-- Matcher for Fix 3's `re.sub(r'\bc\.name\b(?=.*category)', 'c.title', ...)`:
the lookahead `.*category` requires `category` later on the same line. -/
def mCNameTitle (prev : Option Char) (l : List Char) : Option (Nat × List Char) :=
  if lPrefixOf "c.name".data l && boundaryBefore prev && boundaryAfter (l.drop 6) &&
     lContains ((l.drop 6).takeWhile (fun c => c != '\n')) "category".data then
    some (5, "c.title".data)
  else none

/-- Matcher for Fix 3's `re.sub(r'\bpc\.name\b', 'pc.title', ...)`. -/
def mPcName (prev : Option Char) (l : List Char) : Option (Nat × List Char) :=
  if lPrefixOf "pc.name".data l && boundaryBefore prev && boundaryAfter (l.drop 7) then
    some (6, "pc.title".data)
  else none

/-- Matcher for Fix 4's `re.sub(r',\s*,', ',', ...)`. -/
def mCommaComma : List Char → Option (Nat × List Char)
  | ',' :: rest =>
    let k := (rest.takeWhile pyIsSpace).length
    match rest.drop k with
    | ',' :: _ => some (k + 1, [','])
    | _ => none
  | _ => none

/-- The keyword alternatives of Fix 4's second pattern. -/
def comma_keywords : List String := ["FROM", "WHERE", "GROUP", "ORDER", "LIMIT"]

/-- Matcher for Fix 4's `re.sub(r',\s*(FROM|WHERE|GROUP|ORDER|LIMIT)', r' \1', ...)`. -/
def mCommaKw : List Char → Option (Nat × List Char)
  | ',' :: rest =>
    let k := (rest.takeWhile pyIsSpace).length
    let after := rest.drop k
    match comma_keywords.find? (fun kw => lPrefixOf kw.data after) with
    | some kw => some (k + kw.length, ' ' :: kw.data)
    | none => none
  | _ => none

/-- Matcher for Fix 4's `re.sub(r'SELECT\s+,', 'SELECT ', ...)`. -/
def mSelectComma (l : List Char) : Option (Nat × List Char) :=
  if lPrefixOf "SELECT".data l then
    let rest := l.drop 6
    let j := (rest.takeWhile pyIsSpace).length
    if 0 < j then
      match rest.drop j with
      | ',' :: _ => some (6 + j, "SELECT ".data)
      | _ => none
    else none
  else none

/-- The legacy status filter Fix 1 rewrites. -/
def status_filter_bad : String := "status IN ('paid', 'unpaid', 'remaining')"

/-- The canonical status filter Fix 1 substitutes. -/
def status_filter_good : String :=
  "status NOT IN ('draft', 'draft_return', 'return', 'canceled')"

/-- `SalesAgent._fix_common_sql_errors`: the four correction passes in source
order (status filter, customer name, category name, comma cleanup). -/
def fix_common_sql_errors (sql_query : String) : String :=
  let s1 := if substrOf status_filter_bad sql_query then
      pyReplaceAll sql_query status_filter_bad status_filter_good
    else sql_query
  let s2 := if substrOf "c.name" s1 && substrOf "contacts c" s1 then
      subAllB mCNameCompany s1
    else s1
  let s3 := if substrOf "category_id" (pyLower s2) then
      pyReplaceAll (subAllB mPcName (subAllB mCNameTitle s2))
        "products_category.name" "products_category.title"
    else s2
  let s4 := subAll mCommaComma s3
  let s5 := subAll mCommaKw s4
  subAll mSelectComma s5

/-- A string none of whose correction triggers fire: no legacy status filter,
no `c.name` alongside a `contacts c` alias, no `category_id`, and no match of
any of the three comma-cleanup patterns. -/
def fix_trigger_free (s : String) : Bool :=
  !(substrOf status_filter_bad s) &&
  !(substrOf "c.name" s && substrOf "contacts c" s) &&
  !(substrOf "category_id" (pyLower s)) &&
  !(scanHasMatch mCommaComma s.data) &&
  !(scanHasMatch mCommaKw s.data) &&
  !(scanHasMatch mSelectComma s.data)

/-! ## Result Formatter column classification
(src/agents/sales_agent.py lines 1142-1154 and 1271-1278) -/

/-- Presentation category a numeric column is rendered with. -/
inductive NumFmt
  | currency
  | unitCount
  | percent
  | days
  | plain
deriving DecidableEq

/-- Currency keywords of `_format_table_results`. -/
def table_currency_keys : List String :=
  ["revenue", "amount", "total", "price", "cost", "profit", "value",
   "sales_value", "total_sales_value"]

/-- Quantity keywords of `_format_table_results`. -/
def table_quantity_keys : List String :=
  ["count", "quantity", "invoices", "orders", "units", "qty", "sold_qty",
   "total_sold_qty"]

/-- Numeric-column classification of `_format_table_results`: the currency
branch explicitly excludes names containing `qty`, `quantity` or `sold_qty`,
so quantity-named columns fall to the units branch. -/
def table_numfmt (key : String) : NumFmt :=
  let kl := pyLower key
  if table_currency_keys.any (fun k => substrOf k kl) && !(substrOf "qty" kl) &&
     !(substrOf "quantity" kl) && !(substrOf "sold_qty" kl) then .currency
  else if table_quantity_keys.any (fun k => substrOf k kl) then .unitCount
  else if substrOf "percent" kl || substrOf "margin" kl then .percent
  else if substrOf "days" kl then .days
  else .plain

/-- Currency keywords of `_basic_format_results`' single-row branch. -/
def basic_currency_keys : List String :=
  ["revenue", "amount", "total", "sales", "price", "cost", "profit"]

/-- Count keywords of `_basic_format_results`' single-row branch. -/
def basic_count_keys : List String :=
  ["count", "quantity", "invoices", "orders", "customers"]

/-- Numeric-column classification of `_basic_format_results`' single-row
branch: the currency check comes first and has NO quantity exclusion. -/
def basic_numfmt (key : String) : NumFmt :=
  let kl := pyLower key
  if basic_currency_keys.any (fun k => substrOf k kl) then .currency
  else if basic_count_keys.any (fun k => substrOf k kl) then .unitCount
  else if substrOf "percent" kl then .percent
  else .plain

/-! ## Comparison block of SalesAgent._format_with_llm
(src/agents/sales_agent.py lines 1190-1218) -/

/-- `difference = this_period - last_period`. -/
def comparison_difference (this_period last_period : ℚ) : ℚ :=
  this_period - last_period

/-- `percent_change`: the ratio times 100 when `last_period > 0`, else 0. -/
def comparison_percent_change (this_period last_period : ℚ) : ℚ :=
  if 0 < last_period then
    comparison_difference this_period last_period / last_period * 100
  else 0

/-- Direction of the comparison's insight sentence and emoji. -/
inductive TrendDir
  | up
  | down
  | flat
deriving DecidableEq

/-- The insight direction is chosen by the sign of `difference`. -/
def comparison_trend (this_period last_period : ℚ) : TrendDir :=
  if 0 < comparison_difference this_period last_period then .up
  else if comparison_difference this_period last_period < 0 then .down
  else .flat

/-! ## Claim C1's validator as the specification words it (for the
refinement comparison): a forbidden keyword must occur as a bare token
outside string literals. -/

/-- Remove the contents of single-quoted SQL string literals; written from
the claim's words for the comparison with `is_safe_query`. -/
def strip_sql_literals (l : List Char) : List Char := go false l
where
  go : Bool → List Char → List Char
    | _, [] => []
    | inLit, c :: cs =>
      if c = '\'' then go (!inLit) cs
      else if inLit then go inLit cs
      else c :: go inLit cs

/-- Maximal word-character runs of the text (fuel keeps the recursion
structural; initialised to the text length, it never runs out). -/
def tokensOfF : Nat → List Char → List (List Char)
  | _, [] => []
  | 0, _ => []
  | fuel + 1, c :: cs =>
    if isWordChar c then
      (c :: cs.takeWhile isWordChar) :: tokensOfF fuel (cs.dropWhile isWordChar)
    else tokensOfF fuel cs

/-- The bare tokens of the SQL outside string literals, upper-cased; written
from the claim's words. -/
def spec_bare_tokens (sql : String) : List String :=
  let stripped := strip_sql_literals sql.data
  (tokensOfF stripped.length stripped).map (fun t => ⟨t.map Char.toUpper⟩)

/-- Claim C1's rejection condition as stated: some forbidden keyword occurs
as a bare token outside string literals. -/
def spec_has_forbidden_bare_token (sql : String) : Bool :=
  (spec_bare_tokens sql).any (fun t => forbidden_keywords.contains t)

/-! ## Bridging lemmas between the executable scanners and the standard
list predicates, and the no-match identity of the replace-all driver. -/

theorem lPrefixOf_iff (p l : List Char) : lPrefixOf p l = true ↔ p <+: l := by
  induction p generalizing l with
  | nil => simp [lPrefixOf, List.nil_prefix]
  | cons a ps ih =>
    cases l with
    | nil => simp [lPrefixOf, List.prefix_nil]
    | cons c cs => simp [lPrefixOf, List.cons_prefix_cons, ih]

theorem lContains_iff (hay pat : List Char) : lContains hay pat = true ↔ pat <:+: hay := by
  induction hay with
  | nil => simp [lContains, lPrefixOf_iff, List.infix_nil, List.prefix_nil]
  | cons c cs ih => simp [lContains, lPrefixOf_iff, ih, List.infix_cons_iff]

theorem substrOf_iff (pat s : String) : substrOf pat s = true ↔ pat.data <:+: s.data :=
  lContains_iff s.data pat.data

theorem subScanF_eq_self_of_no_match (m : List Char → Option (Nat × List Char)) :
    ∀ (fuel : Nat) (l : List Char), scanHasMatch m l = false → subScanF m fuel l = l := by
  intro fuel
  induction fuel with
  | zero => intro l _; cases l <;> rfl
  | succ n ih =>
    intro l h
    cases l with
    | nil => rfl
    | cons c cs =>
      simp only [scanHasMatch, Bool.or_eq_false_iff] at h
      obtain ⟨h1, h2⟩ := h
      cases hm : m (c :: cs) with
      | some p => rw [hm] at h1; simp at h1
      | none => simp only [subScanF, hm]; rw [ih cs h2]

theorem subAll_eq_self_of_no_match (m : List Char → Option (Nat × List Char))
    (s : String) (h : scanHasMatch m s.data = false) : subAll m s = s := by
  unfold subAll
  rw [subScanF_eq_self_of_no_match m _ _ h]

theorem fix_id_of_trigger_free (s : String) (h : fix_trigger_free s = true) :
    fix_common_sql_errors s = s := by
  unfold fix_trigger_free at h
  simp only [Bool.and_eq_true, Bool.not_eq_true'] at h
  obtain ⟨⟨⟨⟨⟨h1, h2⟩, h3⟩, h4⟩, h5⟩, h6⟩ := h
  unfold fix_common_sql_errors
  simp only [h1, h2, h3, Bool.false_eq_true, if_false]
  rw [subAll_eq_self_of_no_match _ _ h4, subAll_eq_self_of_no_match _ _ h5,
    subAll_eq_self_of_no_match _ _ h6]

/-! ## The claims -/

/-- C1 (counterexample): the claim says a single-statement SELECT whose only
occurrence of a forbidden word lies inside a longer identifier such as
`created_at` is accepted; but `_is_safe_query` scans for keywords as bare
substrings of the upper-cased SQL, so it rejects this statement even though
it contains no forbidden bare token outside string literals, starts with
SELECT, and has no stacked statement. -/
theorem is_safe_query_rejects_identifier_containing_keyword :
    spec_has_forbidden_bare_token "SELECT created_at FROM sales_invoice" = false ∧
    lPrefixOf "SELECT".data
      (pyStripL (pyUpper "SELECT created_at FROM sales_invoice").data) = true ∧
    (("SELECT created_at FROM sales_invoice".data.dropLast).contains ';') = false ∧
    is_safe_query "SELECT created_at FROM sales_invoice" = false := by
  refine ⟨by decide, by decide, by decide, by decide⟩

/-- C1 (amended): `_is_safe_query` accepts a statement exactly when no
forbidden keyword occurs as a case-insensitive SUBSTRING anywhere (including
inside string literals and longer identifiers), the trimmed upper-cased text
starts with SELECT, and no semicolon occurs before the final character. -/
theorem is_safe_query_characterization (sql : String) :
    is_safe_query sql = true ↔
      ((∀ kw ∈ forbidden_keywords, ¬ kw.data <:+: (pyUpper sql).data) ∧
       "SELECT".data <+: pyStripL (pyUpper sql).data ∧
       ';' ∉ sql.data.dropLast) := by
  unfold is_safe_query
  by_cases h1 : forbidden_keywords.any (fun keyword => substrOf keyword (pyUpper sql)) = true
  · simp only [h1, if_true]
    obtain ⟨kw, hmem, hkw⟩ := List.any_eq_true.mp h1
    simp only [Bool.false_eq_true, false_iff]
    rintro ⟨hall, -, -⟩
    exact hall kw hmem ((substrOf_iff kw (pyUpper sql)).mp hkw)
  · have hall : ∀ kw ∈ forbidden_keywords, ¬ kw.data <:+: (pyUpper sql).data := by
      intro kw hmem hinf
      exact h1 (List.any_eq_true.mpr ⟨kw, hmem, (substrOf_iff kw (pyUpper sql)).mpr hinf⟩)
    rw [Bool.not_eq_true] at h1
    simp only [h1, Bool.false_eq_true, if_false]
    by_cases h2 : lPrefixOf "SELECT".data (pyStripL (pyUpper sql).data) = true
    · rw [h2]
      simp only [Bool.not_true, Bool.false_eq_true, if_false]
      by_cases h3 : (sql.data.dropLast).contains ';' = true
      · simp only [h3, if_true, Bool.false_eq_true, false_iff]
        rintro ⟨-, -, hno⟩
        exact hno (List.elem_iff.mp h3)
      · rw [Bool.not_eq_true] at h3
        simp only [h3, Bool.false_eq_true, if_false]
        refine iff_of_true trivial ⟨hall, (lPrefixOf_iff _ _).mp h2, fun hm => ?_⟩
        have hm' : List.elem ';' sql.data.dropLast = true := List.elem_iff.mpr hm
        have h3' : List.elem ';' sql.data.dropLast = false := h3
        rw [h3'] at hm'
        cases hm'
    · rw [Bool.not_eq_true] at h2
      rw [h2]
      simp only [Bool.not_false, if_true, Bool.false_eq_true, false_iff]
      rintro ⟨-, hsel, -⟩
      have hs := (lPrefixOf_iff "SELECT".data (pyStripL (pyUpper sql).data)).mpr hsel
      simp [hs] at h2

set_option maxRecDepth 100000

/-- C2: the spec claims every generated statement filters on the SUPPLIED
company id; but the "top 10 products by value" template hardcodes
`company_id = 1336`, so for company 922 the generated SQL filters another
tenant and never mentions 922. -/
theorem generate_sql_top10_value_ignores_company_id :
    run_generate_sql "top 10 products by value" 922 (PyResult.exn "transport unused") =
      PyResult.ok (some tmpl_top_10_products_by_value) ∧
    substrOf "company_id = 1336" tmpl_top_10_products_by_value = true ∧
    substrOf "922" tmpl_top_10_products_by_value = false :=
  ⟨rfl, by decide, by decide⟩

/-- C3: the executor's `_validate_read_only` only blocks a statement whose
FIRST word is one of eight write keywords; `GRANT` (a forbidden keyword per
the spec and the agent's own list) and the non-SELECT `SHOW TABLES` are both
accepted, so the executor enforces neither the full forbidden-keyword scan
nor the SELECT-only rule its docstring promises. -/
theorem validate_read_only_accepts_grant_and_show :
    validate_read_only "GRANT ALL ON accounts TO intruder" = Except.ok () ∧
    validate_read_only "SHOW TABLES" = Except.ok () :=
  ⟨rfl, rfl⟩

/-- C4: `process_query` always returns text: for every question, company id
and every behaviour of the language-model transport, the database executor
and the formatter (including all of them raising), the result is an `ok`
string, never a propagated exception. -/
theorem process_query_always_returns_text {ρ : Type} (message : String)
    (company_id : Int) (completion : PyResult String)
    (dbExec : String → PyResult ρ) (fmt : ρ → PyResult String) :
    (process_query message company_id completion dbExec fmt).isOk = true := by
  unfold process_query
  repeat' split
  all_goals rfl

/-- C5 (counterexample): the claim says the product-id join predicate is
injected for EVERY synthesized SQL referencing both `sales_items` and
`stock` without a product-id equality, regardless of alias or join spelling;
but with the alias `t` the fixed regex does not match and the SQL is
returned unchanged, with no product-id predicate. -/
theorem add_product_join_misses_alias_spelling :
    substrOf "sales_items"
      (pyLower "SELECT p.name FROM stock s JOIN sales_items t ON t.invoice_id = si.invoice_id") = true ∧
    substrOf "stock"
      (pyLower "SELECT p.name FROM stock s JOIN sales_items t ON t.invoice_id = si.invoice_id") = true ∧
    substrOf "product_id"
      "SELECT p.name FROM stock s JOIN sales_items t ON t.invoice_id = si.invoice_id" = false ∧
    add_product_join
      "SELECT p.name FROM stock s JOIN sales_items t ON t.invoice_id = si.invoice_id" =
      "SELECT p.name FROM stock s JOIN sales_items t ON t.invoice_id = si.invoice_id" :=
  ⟨by decide, by decide, by decide, by decide⟩

/-- C5 (amended): the injection is keyed to the one join spelling of the
guard's regex — `JOIN sales_items [AS si_item] ON [si_item.]invoice_id =
[si.]invoice_id` — receiving the predicate, while an equivalent join under
any other alias is left unchanged even though both tables are referenced
without a product-id equality. -/
theorem add_product_join_keyed_to_fixed_spelling :
    add_product_join
      "SELECT p.name FROM stock s JOIN sales_items ON invoice_id = invoice_id WHERE s.company_id = 5" =
      "SELECT p.name FROM stock s JOIN sales_items ON invoice_id = invoice_id AND si_item.product_id = s.product_id WHERE s.company_id = 5" ∧
    add_product_join
      "SELECT p.name FROM stock s JOIN sales_items AS si_item ON si_item.invoice_id = si.invoice_id" =
      "SELECT p.name FROM stock s JOIN sales_items AS si_item ON si_item.invoice_id = si.invoice_id AND si_item.product_id = s.product_id" ∧
    add_product_join
      "SELECT p.name FROM stock s JOIN sales_items x ON x.invoice_id = si.invoice_id" =
      "SELECT p.name FROM stock s JOIN sales_items x ON x.invoice_id = si.invoice_id" :=
  ⟨by decide, by decide, by decide⟩

/-- C6 (counterexample): the correction pass is not idempotent: the
duplicate-comma collapsing makes one left-to-right pass, so `a,,,b`
collapses to `a,,b` on the first application and only to `a,b` on the
second. -/
theorem fix_common_sql_errors_not_idempotent :
    fix_common_sql_errors (fix_common_sql_errors "SELECT a,,,b FROM t") ≠
      fix_common_sql_errors "SELECT a,,,b FROM t" := by decide

/-- C6 (amended): the pass is idempotent at `s` whenever its first output
matches none of the correction triggers (legacy status filter, `c.name`
with a `contacts c` alias, `category_id`, or any comma-cleanup pattern) —
a sufficient condition, not a necessary one (a trigger can also fire
without changing the text); an input with a run of three or more commas is
one whose first output still carries a trigger and is further rewritten. -/
theorem fix_common_sql_errors_idempotent_of_trigger_free (s : String)
    (h : fix_trigger_free (fix_common_sql_errors s) = true) :
    fix_common_sql_errors (fix_common_sql_errors s) = fix_common_sql_errors s :=
  fix_id_of_trigger_free _ h

/-- C6 (witness): a concrete double-comma input whose corrected form is
trigger-free, so the second application changes nothing. -/
theorem fix_common_sql_errors_idempotent_witness :
    fix_trigger_free (fix_common_sql_errors "SELECT a,,b FROM t") = true ∧
    fix_common_sql_errors (fix_common_sql_errors "SELECT a,,b FROM t") =
      fix_common_sql_errors "SELECT a,,b FROM t" :=
  ⟨by decide, fix_common_sql_errors_idempotent_of_trigger_free "SELECT a,,b FROM t" (by decide)⟩

/-- C7: a column named `total_sold_qty` classifies as a unit count in the
per-row table formatter (whose currency branch excludes qty names), but the
basic fallback formatter has no such exclusion and classifies the same
column as currency — quantity precedence does NOT hold in every formatting
path. -/
theorem basic_format_misclassifies_total_sold_qty :
    table_numfmt "total_sold_qty" = NumFmt.unitCount ∧
    basic_numfmt "total_sold_qty" = NumFmt.currency :=
  ⟨rfl, rfl⟩

/-- C8 (counterexample): the claim states `percent_change = difference /
last_period × 100` with 0 only at `last_period = 0`; but the code tests
`last_period > 0`, so for a negative `last_period` it yields 0 where the
claimed formula gives −100. -/
theorem comparison_percent_change_zero_for_negative_last :
    comparison_percent_change 0 (-100) = 0 ∧
    comparison_difference 0 (-100) / (-100) * 100 = -100 ∧
    (-100 : ℚ) ≠ 0 := by
  refine ⟨?_, by norm_num [comparison_difference], by norm_num⟩
  rw [comparison_percent_change, if_neg (by norm_num)]

/-- C8 (amended): `difference = this − last` always; `percent_change` is the
ratio times 100 when `last_period > 0` and 0 whenever `last_period ≤ 0`
(in particular at 0, with no division-by-zero possible), and the insight
direction follows the sign of `difference`. -/
theorem comparison_block_characterization (this_period last_period : ℚ) :
    comparison_difference this_period last_period = this_period - last_period ∧
    (0 < last_period →
      comparison_percent_change this_period last_period =
        (this_period - last_period) / last_period * 100) ∧
    (last_period ≤ 0 → comparison_percent_change this_period last_period = 0) ∧
    (0 < this_period - last_period →
      comparison_trend this_period last_period = TrendDir.up) ∧
    (this_period - last_period < 0 →
      comparison_trend this_period last_period = TrendDir.down) ∧
    (this_period - last_period = 0 →
      comparison_trend this_period last_period = TrendDir.flat) := by
  refine ⟨rfl, ?_, ?_, ?_, ?_, ?_⟩
  · intro h
    rw [comparison_percent_change, if_pos h, comparison_difference]
  · intro h
    rw [comparison_percent_change, if_neg (by linarith)]
  · intro h
    rw [comparison_trend, if_pos (by rw [comparison_difference]; exact h)]
  · intro h
    rw [comparison_trend, if_neg (by rw [comparison_difference]; linarith),
      if_pos (by rw [comparison_difference]; exact h)]
  · intro h
    rw [comparison_trend, if_neg (by rw [comparison_difference]; linarith),
      if_neg (by rw [comparison_difference]; linarith)]

/-- C8 (witness): the spec's concrete comparison: 150 versus 100 gives
difference 50, percent change 50 and a positive trend. -/
theorem comparison_block_witness :
    comparison_difference 150 100 = 50 ∧
    comparison_percent_change 150 100 = 50 ∧
    comparison_trend 150 100 = TrendDir.up := by
  have h := comparison_block_characterization 150 100
  refine ⟨h.1.trans (by norm_num), ?_, h.2.2.2.1 (by norm_num)⟩
  rw [h.2.1 (by norm_num)]
  norm_num

/-- C9 (counterexample): nothing in the generator extracts the number from
"top 5": the question matches no template branch, so the SQL is whatever
the model returns; with a model answering `SELECT 1` the generated SQL
carries no `LIMIT 5` (nor any limit), contradicting the claimed override. -/
theorem top5_limit_not_extracted :
    run_generate_sql "top 5 products by revenue" 922 (PyResult.ok "SELECT 1") =
      PyResult.ok (some "SELECT 1") ∧
    substrOf "LIMIT 5" "SELECT 1" = false ∧
    substrOf "LIMIT" "SELECT 1" = false :=
  ⟨by decide, by decide, by decide⟩

/-- C9 (amended): the question "top 5 products by revenue" falls through
the quick map and every hardcoded branch of `_generate_sql` and is handed
verbatim to the LLM synthesizer, whose post-processed output is returned
with no limit adjustment whatsoever, for every model behaviour. -/
theorem top5_falls_through_to_llm (completion : PyResult String) :
    run_generate_sql "top 5 products by revenue" 922 completion =
      generate_sql_with_llm completion := rfl

/-- C10: any question whose lower-cased text contains a quick-map phrase
makes `_generate_sql` call the undefined `_get_simple_query`, so the
`AttributeError` is caught at the `process_query` boundary and the generic
error text (without a SQL transparency box) is returned instead of any
report — for every collaborator behaviour. -/
theorem quick_map_questions_return_error_text {ρ : Type} (message : String)
    (company_id : Int) (completion : PyResult String)
    (dbExec : String → PyResult ρ) (fmt : ρ → PyResult String)
    (h : quick_map_phrases.any (fun p => substrOf p (pyLower message)) = true) :
    process_query message company_id completion dbExec fmt =
      PyResult.ok (error_response attr_err_msg none) := by
  unfold process_query run_generate_sql
  simp only [h, if_true]

/-- C10 (witness): the quick-map phrase "show me sales today" concretely
yields the generic error text. -/
theorem quick_map_questions_return_error_text_witness :
    quick_map_phrases.any (fun p => substrOf p (pyLower "show me sales today")) = true ∧
    process_query "show me sales today" 922 (PyResult.exn "transport down")
      (fun _ : String => PyResult.ok ()) (fun _ : Unit => PyResult.ok "report") =
      PyResult.ok (error_response attr_err_msg none) :=
  ⟨by decide,
   quick_map_questions_return_error_text "show me sales today" 922 (PyResult.exn "transport down")
     (fun _ : String => PyResult.ok ()) (fun _ : Unit => PyResult.ok "report") (by decide)⟩
